import Mathlib

/-!
Verification of the natural-language specification of the
earth-polychromatic-imaging-camera-api repository (a CLI client and AWS
Lambda wrapper for NASA's EPIC REST API).

The repository ships only its package init file and its test suite under
`src/`; the implementation modules `earth_polychromatic_api/cli.py`
(date-range resolver, filename mapper, download/metadata commands) and
`lambda_handler.py` (Lambda handler) are not present. Those components are
therefore modelled here from the specification's words (spec.md §4.1, §4.2,
§4.3, §6, §7), with the repository's test suite (`src/tests/test_cli.py`,
`src/tests/test_lambda_basic.py`) pinning the concrete behaviours the
models must reproduce.

Dates are modelled as integer day counts since the Unix epoch
(1970-01-01 = day 0), with an explicit civil-calendar conversion so that
the `YYYY-MM-DD` string formatting demanded by the spec is computed for
real, not assumed.
-/

/-- Convert a civil calendar date (proleptic Gregorian) to a day count
since 1970-01-01. Standard era-based algorithm; months are 1..12, days
1..31. Used to supply concrete "UTC today" values to the resolver model. -/
def daysFromCivil (y : Int) (m d : Nat) : Int :=
  let yAdj : Int := y - (if m ≤ 2 then 1 else 0)
  let era : Int := (if 0 ≤ yAdj then yAdj else yAdj - 399) / 400
  let yoe : Nat := (yAdj - era * 400).toNat
  let mp : Nat := if 2 < m then m - 3 else m + 9
  let doy : Nat := (153 * mp + 2) / 5 + d - 1
  let doe : Nat := yoe * 365 + yoe / 4 - yoe / 100 + doy
  era * 146097 + (doe : Int) - 719468

/-- Convert a day count since 1970-01-01 back to a civil calendar date
(year, month, day). Inverse of `daysFromCivil` on valid dates. -/
def civilFromDays (z0 : Int) : Int × Nat × Nat :=
  let z : Int := z0 + 719468
  let era : Int := (if 0 ≤ z then z else z - 146096) / 146097
  let doe : Nat := (z - era * 146097).toNat
  let yoe : Nat := (doe - doe / 1460 + doe / 36524 - doe / 146096) / 365
  let doy : Nat := doe - (365 * yoe + yoe / 4 - yoe / 100)
  let mp : Nat := (5 * doy + 2) / 153
  let d : Nat := doy - (153 * mp + 2) / 5 + 1
  let m : Nat := if mp < 10 then mp + 3 else mp - 9
  ((yoe : Int) + era * 400 + (if m ≤ 2 then 1 else 0), m, d)

/-- Zero-pad a month or day number to two digits. -/
def pad2 (n : Nat) : String :=
  if n < 10 then "0" ++ toString n else toString n

/-- Zero-pad a year number to four digits. -/
def pad4 (n : Nat) : String :=
  if n < 10 then "000" ++ toString n
  else if n < 100 then "00" ++ toString n
  else if n < 1000 then "0" ++ toString n
  else toString n

/-- Format a day count since 1970-01-01 as a `YYYY-MM-DD` string, the
format `strftime("%Y-%m-%d")` produces for dates with positive year. -/
def formatDate (z : Int) : String :=
  let c := civilFromDays z
  pad4 c.1.toNat ++ "-" ++ pad2 c.2.1 ++ "-" ++ pad2 c.2.2

/-- Modelled from the spec: the Date Range Resolver `get_date_range` of the
missing module `earth_polychromatic_api/cli.py` (spec.md §4.1). Policy in
priority order: (1) if both explicit dates are provided, return them
verbatim with no validation; (2) otherwise `anchor = today (UTC) -
days_back days`, where `days_back` defaults to 1; (3) if `range_days` is
provided the result is `(anchor - (range_days - 1), anchor)`; (4) otherwise
both components are the anchor. The UTC clock reading is passed in as
`today`, a day count since 1970-01-01. -/
def get_date_range (today : Int) (startDate endDate : Option String)
    (daysBack dateRangeDays : Option Nat) : String × String :=
  match startDate, endDate with
  | some s, some e => (s, e)
  | _, _ =>
    let anchor : Int := today - ((daysBack.getD 1 : Nat) : Int)
    match dateRangeDays with
    | some r => (formatDate (anchor - ((r - 1 : Nat) : Int)), formatDate anchor)
    | none => (formatDate anchor, formatDate anchor)

theorem daysFromCivil_epoch : daysFromCivil 1970 1 1 = 0 := by decide

theorem civilFromDays_epoch : civilFromDays 0 = (1970, 1, 1) := by decide

theorem formatDate_example : formatDate (daysFromCivil 2024 10 10) = "2024-10-10" := by decide

/-- C4: when both explicit dates are provided, `get_date_range` returns
exactly that pair unchanged, for every value of `days_back` and
`range_days` and without validating that start is at most end (the
quantification over arbitrary strings includes pairs with start after
end). -/
theorem get_date_range_explicit (today : Int) (s e : String)
    (daysBack dateRangeDays : Option Nat) :
    get_date_range today (some s) (some e) daysBack dateRangeDays = (s, e) := rfl

/-- C5: with no explicit dates and no `range_days`, `get_date_range`
returns both components equal to UTC today minus `days_back` days,
formatted `YYYY-MM-DD`; with all four arguments absent, `days_back`
defaults to 1, so both components are UTC yesterday. -/
theorem get_date_range_days_back (today : Int) (db : Nat) :
    get_date_range today none none (some db) none
      = (formatDate (today - (db : Int)), formatDate (today - (db : Int))) ∧
    get_date_range today none none none none
      = (formatDate (today - 1), formatDate (today - 1)) :=
  ⟨rfl, rfl⟩

/-- C1: with no explicit dates, `days_back ≥ 0` (a natural number) and
`range_days ≥ 1`, `get_date_range` returns the pair
`(anchor - (range_days - 1) days, anchor)` with `anchor = today -
days_back days`, formatted `YYYY-MM-DD`; the inclusive span from start to
end covers exactly `range_days` calendar days. -/
theorem get_date_range_span (today : Int) (db rd : Nat) (h : 1 ≤ rd) :
    get_date_range today none none (some db) (some rd)
      = (formatDate (today - (db : Int) - ((rd - 1 : Nat) : Int)),
         formatDate (today - (db : Int))) ∧
    (today - (db : Int)) - ((today - (db : Int)) - ((rd - 1 : Nat) : Int)) + 1
      = (rd : Int) := by
  refine ⟨rfl, ?_⟩
  omega

theorem get_date_range_span_witness :
    1 ≤ 7 ∧
    get_date_range (daysFromCivil 2024 10 10) none none (some 3) (some 7)
      = ("2024-10-01", "2024-10-07") :=
  ⟨by decide,
   (get_date_range_span (daysFromCivil 2024 10 10) 3 7 (by decide)).1.trans
     (by decide)⟩

/-- The four EPIC image collections (spec.md §3). -/
inductive Collection where
  | natural
  | enhanced
  | aerosol
  | cloud
  deriving DecidableEq

/-- The upstream API path segment of a collection, also used in the
command's user-facing messages ("No natural images found for ..."). -/
def Collection.apiSegment : Collection → String
  | .natural => "natural"
  | .enhanced => "enhanced"
  | .aerosol => "aerosol"
  | .cloud => "cloud"

/-- The trailing underscore-separated token of an image name: the
characters after the last underscore, or the whole name when it contains
no underscore. This is the "timestamp-like trailing token" of spec.md
§4.2. -/
def trailingToken (name : String) : String :=
  String.mk (name.data.foldl (fun acc c => if c = '_' then [] else acc ++ [c]) [])

/-- Whether a token is a recognizable numeric (timestamp-like) token: a
nonempty string of decimal digits. -/
def isNumericToken (s : String) : Bool :=
  !s.data.isEmpty && s.data.all (fun c => c.isDigit)

/-- Modelled from the spec: the Collection Filename Mapper `filename_for`
of the missing module `earth_polychromatic_api/cli.py` (spec.md §4.2). For
natural and enhanced the upstream image name is used unchanged with a
`.png` extension appended; for aerosol and cloud the upstream name's own
naming is discarded and the local filename is rebuilt from the
collection's canonical filename stem (`epic_aerosol_`,
`epic_cloudfraction_`) followed by the timestamp-like trailing token of
the upstream name, falling back to the full upstream name after the
canonical stem when no recognizable trailing numeric token exists. -/
def filename_for (c : Collection) (imageName : String) : String :=
  match c with
  | .natural => imageName ++ ".png"
  | .enhanced => imageName ++ ".png"
  | .aerosol =>
      let tok := trailingToken imageName
      "epic_aerosol_" ++ (if isNumericToken tok then tok else imageName) ++ ".png"
  | .cloud =>
      let tok := trailingToken imageName
      "epic_cloudfraction_" ++ (if isNumericToken tok then tok else imageName) ++ ".png"

/-- C2: for every aerosol or cloud image name whose trailing token is a
recognizable numeric (timestamp-like) token — which every name received
from the API has — the mapper discards the upstream naming and rebuilds
the local filename from the collection's canonical stem followed by that
token and a `.png` extension. -/
theorem filename_for_remaps (name tok : String)
    (htok : trailingToken name = tok) (hnum : isNumericToken tok = true) :
    filename_for .aerosol name = "epic_aerosol_" ++ tok ++ ".png" ∧
    filename_for .cloud name = "epic_cloudfraction_" ++ tok ++ ".png" := by
  subst htok
  simp [filename_for, hnum]

theorem filename_for_remaps_witness :
    trailingToken "epic_cloud_20241001003633" = "20241001003633" ∧
    isNumericToken "20241001003633" = true ∧
    filename_for .cloud "epic_cloud_20241001003633"
      = "epic_cloudfraction_20241001003633.png" :=
  ⟨by decide, by decide,
   (filename_for_remaps "epic_cloud_20241001003633" "20241001003633"
       (by decide) (by decide)).2.trans (by decide)⟩

/-- C3: for every natural or enhanced image name, the mapper returns the
upstream name unchanged with a `.png` extension appended (the
pass-through behaviour: any `epic_1b_` shape in the output comes from the
upstream name itself, not from the mapper). -/
theorem filename_for_passthrough (name : String) :
    filename_for .natural name = name ++ ".png" ∧
    filename_for .enhanced name = name ++ ".png" :=
  ⟨rfl, rfl⟩

/-- C9: the filename mapper is a pure deterministic function, hence
mapping the same (collection, image name) pair twice yields the same
result both times. -/
theorem filename_for_deterministic (c : Collection) (name : String) :
    filename_for c name = filename_for c name := rfl

/-- Outcome of a single image in the download loop: either the image was
downloaded under its mapped local filename, or the fetch failed and the
failure was logged for that image. -/
inductive DownloadOutcome where
  | downloaded (fileName : String)
  | failed (imageName : String) (errorMessage : String)
  deriving DecidableEq

/-- Result of one invocation of the download command: process exit code,
the user-facing messages printed, and the per-image outcomes (an empty
outcome list means no files were written). -/
structure CommandResult where
  exitCode : Nat
  messages : List String
  outcomes : List DownloadOutcome
  deriving DecidableEq

/-- One step of the download loop: attempt the fetch for one image; on
success the file is written under `filename_for`, on failure the error is
recorded for that image and the loop moves on. -/
def downloadOne (fetch : String → Except String Unit) (c : Collection)
    (imageName : String) : DownloadOutcome :=
  match fetch imageName with
  | .ok _ => .downloaded (filename_for c imageName)
  | .error msg => .failed imageName msg

/-- Modelled from the spec: the `download-images` command of the missing
module `earth_polychromatic_api/cli.py` (spec.md §4.3, §6, §7). Omitting
the bucket without requesting local-only mode is a usage error: exit code
1 and no work done. With zero images listed, the command prints "No
{collection} images found for {date}", writes no files, and exits 0.
Otherwise each listed image is attempted in order; a per-image fetch
failure is caught and logged and the batch continues, and the command
exits 0 on completion. Network transport is abstracted as the `fetch`
argument. -/
def download_images (bucket : Option String) (localOnly : Bool)
    (date : String) (c : Collection) (fetch : String → Except String Unit)
    (images : List String) : CommandResult :=
  if bucket.isNone && !localOnly then
    { exitCode := 1,
      messages := ["Error: --bucket required when not using --local-only"],
      outcomes := [] }
  else if images.isEmpty then
    { exitCode := 0,
      messages := ["No " ++ c.apiSegment ++ " images found for " ++ date],
      outcomes := [] }
  else
    { exitCode := 0,
      messages := ["Found " ++ toString images.length ++ " " ++ c.apiSegment
                     ++ " images for " ++ date],
      outcomes := images.map (downloadOne fetch c) }

/-- C7: when the fetch of one image in a batch fails, the download command
records the failure for that image and still processes every remaining
image, and the whole batch completes with exit code 0. -/
theorem download_continues_after_failure (bucket : Option String)
    (localOnly : Bool) (date : String) (c : Collection)
    (fetch : String → Except String Unit) (pre post : List String)
    (bad msg : String)
    (hrun : bucket.isSome = true ∨ localOnly = true)
    (hbad : fetch bad = .error msg) :
    (download_images bucket localOnly date c fetch (pre ++ bad :: post)).exitCode
        = 0 ∧
    (download_images bucket localOnly date c fetch (pre ++ bad :: post)).outcomes
        = pre.map (downloadOne fetch c)
            ++ DownloadOutcome.failed bad msg :: post.map (downloadOne fetch c) := by
  have hcond : (bucket.isNone && !localOnly) = false := by
    cases bucket <;> cases localOnly <;> simp_all
  have hne : (pre ++ bad :: post).isEmpty = false := by
    cases pre <;> simp
  constructor <;> simp [download_images, hcond, hne, downloadOne, hbad]

/-- Fetch stub for the concrete C7 scenario: the middle image of three
fails with a network error, the others succeed. -/
def flakyFetch : String → Except String Unit :=
  fun n => if n = "epic_1b_20241001020000" then .error "Network error" else .ok ()

theorem download_continues_after_failure_witness :
    ((none : Option String).isSome = true ∨ true = true) ∧
    flakyFetch "epic_1b_20241001020000" = .error "Network error" ∧
    (download_images none true "2024-10-01" .natural flakyFetch
        (["epic_1b_20241001010000"] ++ "epic_1b_20241001020000"
           :: ["epic_1b_20241001030000"])).exitCode = 0 ∧
    (download_images none true "2024-10-01" .natural flakyFetch
        (["epic_1b_20241001010000"] ++ "epic_1b_20241001020000"
           :: ["epic_1b_20241001030000"])).outcomes
      = ["epic_1b_20241001010000"].map (downloadOne flakyFetch .natural)
          ++ DownloadOutcome.failed "epic_1b_20241001020000" "Network error"
             :: ["epic_1b_20241001030000"].map (downloadOne flakyFetch .natural) := by
  have h := download_continues_after_failure none true "2024-10-01" .natural
    flakyFetch ["epic_1b_20241001010000"] ["epic_1b_20241001030000"]
    "epic_1b_20241001020000" "Network error" (Or.inr rfl) rfl
  exact ⟨Or.inr rfl, rfl, h.1, h.2⟩

/-- C8: the download command exits 0 on normal completion, including the
zero-images case, where it prints exactly "No {collection} images found
for {date}" and writes no files; omitting the bucket without local-only
mode is a usage error and exits 1. -/
theorem download_exit_codes (date : String) (c : Collection)
    (fetch : String → Except String Unit) (bucket : Option String)
    (localOnly : Bool)
    (hrun : bucket.isSome = true ∨ localOnly = true) :
    download_images bucket localOnly date c fetch []
      = { exitCode := 0,
          messages := ["No " ++ c.apiSegment ++ " images found for " ++ date],
          outcomes := [] } ∧
    ∀ images, (download_images none false date c fetch images).exitCode = 1 := by
  have hcond : (bucket.isNone && !localOnly) = false := by
    cases bucket <;> cases localOnly <;> simp_all
  constructor
  · simp [download_images, hcond]
  · intro images
    simp [download_images]

theorem download_exit_codes_witness :
    ((some "test-bucket" : Option String).isSome = true ∨ false = true) ∧
    download_images (some "test-bucket") false "2024-01-01" .natural flakyFetch []
      = { exitCode := 0,
          messages := ["No natural images found for 2024-01-01"],
          outcomes := [] } ∧
    (download_images none false "2024-01-01" .natural flakyFetch
        ["epic_1b_20241001003633"]).exitCode = 1 := by
  have h := download_exit_codes "2024-01-01" .natural flakyFetch
    (some "test-bucket") false (Or.inl rfl)
  exact ⟨Or.inl rfl, h.1.trans (by decide), h.2 ["epic_1b_20241001003633"]⟩

/-- A raised Python exception as seen by the Lambda handler's top-level
catch: its class name and its message. -/
structure PyException where
  className : String
  message : String
  deriving DecidableEq

/-- The `details` object of a Lambda response: on success the counts of
images downloaded and uploaded plus the equivalent CLI invocation string;
on failure the structured error type string. -/
inductive LambdaDetails where
  | finished (imagesDownloaded imagesUploaded : Nat) (cliCommand : String)
  | failure (errorType : String)
  deriving DecidableEq

/-- The Lambda response shape of spec.md §6: status code, success flag, an
optional top-level error message, and a details object. -/
structure LambdaResponse where
  statusCode : Nat
  success : Bool
  error : Option String
  details : LambdaDetails
  deriving DecidableEq

/-- A Lambda invocation event; the spec's schema is `{"bucket": string}`
with `bucket` required, so an event models it as an optional field that
may be absent (as in the empty event). -/
structure LambdaEvent where
  bucket : Option String

/-- Modelled from the spec: the handler of the missing module
`lambda_handler.py` (spec.md §4.3, §6, §7). The delegated download path
(`execute_downloads`) is abstracted as the function argument
`runDownloads`, which given the bucket either returns the counts of
images downloaded and uploaded plus the equivalent CLI invocation string,
or raises an exception. If the required `bucket` field is absent the
handler fails immediately with a 500 error response and never invokes the
download path; otherwise it delegates and reports the counts, converting
any exception into a structured 500 error response (the spec leaves the
error kind of the missing-bucket response itself unnamed; it is modelled
as the class name of the error the handler's own check raises). -/
def handler (runDownloads : String → Except PyException (Nat × Nat × String))
    (event : LambdaEvent) : LambdaResponse :=
  match event.bucket with
  | none =>
      { statusCode := 500, success := false,
        error := some "Missing required parameter: bucket",
        details := .failure "ValueError" }
  | some bucketName =>
      match runDownloads bucketName with
      | .ok result =>
          { statusCode := 200, success := true, error := none,
            details := .finished result.1 result.2.1 result.2.2 }
      | .error e =>
          { statusCode := 500, success := false, error := some e.message,
            details := .failure e.className }

/-- C6: for an event lacking the required bucket field, the handler
returns status code 500, success false and an error message naming the
missing bucket — and the response is the same for every download path
`runDownloads`, i.e. the download path is never consulted and no partial
execution happens. -/
theorem handler_missing_bucket
    (runDownloads : String → Except PyException (Nat × Nat × String)) :
    handler runDownloads { bucket := none }
      = { statusCode := 500, success := false,
          error := some "Missing required parameter: bucket",
          details := .failure "ValueError" } := rfl

/-- C10: whenever the delegated download path raises an exception, the
handler returns status code 500, success false, a top-level error field,
and a details object whose error type string is exactly the class name of
the raised exception. -/
theorem handler_error_type
    (runDownloads : String → Except PyException (Nat × Nat × String))
    (b : String) (e : PyException) (h : runDownloads b = .error e) :
    handler runDownloads { bucket := some b }
      = { statusCode := 500, success := false, error := some e.message,
          details := .failure e.className } := by
  simp [handler, h]

/-- Download path stub for the concrete C10 scenario: every invocation
raises `Exception("Download failed")`. -/
def failingDownloads : String → Except PyException (Nat × Nat × String) :=
  fun _ => .error { className := "Exception", message := "Download failed" }

theorem handler_error_type_witness :
    failingDownloads "test-bucket"
      = .error { className := "Exception", message := "Download failed" } ∧
    handler failingDownloads { bucket := some "test-bucket" }
      = { statusCode := 500, success := false, error := some "Download failed",
          details := .failure "Exception" } :=
  ⟨rfl,
   handler_error_type failingDownloads "test-bucket"
     { className := "Exception", message := "Download failed" } rfl⟩
